import Mathlib

/-!
Verification of the OS.js server request-dispatch core.

This development shallowly embeds the server-side request dispatcher
(`src/server/node/lib/instance.js`: `request`, `_checkPermission`, `_vfsCall`,
`_apiCall`, `_staticResponse`) and the authorization library shipped with the
authenticator module sources (`checkPermission` with its inner
`checkApiPermission`, `checkMountPermission`, `checkPackagePermission`, plus
`hasGroup` and the mysql authenticator's `checkSession`).

The asynchronous promise chains of the source are deterministic per request,
so they are embedded as pure functions over a `World` record that fixes the
outcome of every collaborator call (session store, configuration tables,
storage blacklist query, VFS/API handler results).  The dispatcher is embedded
as a function from a `World` and a request to the list of observable effects
(collaborator invocations and responses), in the order the source performs
them.
-/

/-! ## Basic string helpers (structural, kernel-reducible) -/

/-- Does the second list start with the first one? -/
def listStartsWith : List Char → List Char → Bool
  | [], _ => true
  | _ :: _, [] => false
  | p :: ps, c :: cs => p == c && listStartsWith ps cs

/-- `s.startsWith pre` for strings, via the character lists. -/
def strStartsWith (s pre : String) : Bool :=
  listStartsWith pre.toList s.toList

/-- Split a character list at the first occurrence of `://` into the part
before it and the part after it.  `none` when no `://` occurs. -/
def splitScheme : List Char → Option (List Char × List Char)
  | [] => none
  | c :: cs =>
    if listStartsWith [':', '/', '/'] (c :: cs) then
      some ([], cs.drop 2)
    else
      match splitScheme cs with
      | some (a, b) => some (c :: a, b)
      | none => none

/-- Split a character list at its last `/` into the part before and the part
after.  `none` when the list has no slash. -/
def splitLastSlash : List Char → Option (List Char × List Char)
  | [] => none
  | c :: cs =>
    match splitLastSlash cs with
    | some (a, b) => some (c :: a, b)
    | none => if c == '/' then some ([], cs) else none

/-- JavaScript truthiness of an optional string value read from the session
store: absent (`undefined`) and the empty string are falsy. -/
def jsTruthyOptStr : Option String → Bool
  | none => false
  | some s => !(s == "")

/-- Association-list lookup, used for the configuration tables
(`CONFIG.api.groups`, `CONFIG.vfs.mounts`, `CONFIG.vfs.groups`). -/
def lookupKV {α : Type} : List (String × α) → String → Option α
  | [], _ => none
  | (k, v) :: rest, key => if k == key then some v else lookupKV rest key

/-! ## Data model -/

/-- A mount entry of `CONFIG.vfs.mounts`.  The source only reads the `enabled`
and `ro` flags (`mount.enabled === false`, `mount.ro === true`); each is
modelled as `Option Bool` since the key may be absent. -/
structure MountEntry where
  enabled : Option Bool
  ro : Option Bool
deriving DecidableEq

/-- The VFS argument object: the dispatcher either forwards `http.data` or
builds `{path: ...}` for the `get/` sub-route.  Only the `path` field is read
by the permission pipeline (through the virtual-path resolver). -/
structure VfsArgsObj where
  path : String
deriving DecidableEq

/-- The `options` object handed to `_checkPermission`: `{method, args}` for
`fs`, `{method}` for `api`, `{path}` for `package`. -/
structure PermOptions where
  method : Option String := none
  args : Option VfsArgsObj := none
  path : Option String := none
deriving DecidableEq

/-- A parsed virtual path `{protocol, path}`. -/
structure VirtualPath where
  protocol : String
  path : String
deriving DecidableEq

/-- Result of the `JSON.parse(http.session.get('groups')) || []` step of
`hasGroup`:
* `error` — `JSON.parse` threw, which happens when the session key is absent
  (parsing the text `undefined`) or holds invalid JSON; the `catch` leaves the
  initial `[]`;
* `falsy` — the parse produced a falsy value (such as `null`), replaced by
  `[]` through `|| []`;
* `arr gs` — the parse produced an array of group-name strings. -/
inductive GroupsParse
  | error
  | falsy
  | arr (gs : List String)
deriving DecidableEq

/-- The user-group list `hasGroup` ends up with (source lines 375–378). -/
def parsedUserGroups : GroupsParse → List String
  | .error => []
  | .falsy => []
  | .arr gs => gs

/-- The JavaScript value received by `hasGroup` as its `groupList` parameter.
It is either an `Array` of group names, or some non-`Array` value (a plain
string, or — through the shifted call in `checkMountPermission` — the `http`
request object itself). -/
inductive GroupListArg
  | notArray
  | arr (gs : List String)
deriving DecidableEq

/-- The fixed outcome of every collaborator call made while handling one
request, together with the frozen configuration snapshot of the instance. -/
structure World where
  /-- `http.session.get('username')`. -/
  sessionUsername : Option String
  /-- Parse outcome for `http.session.get('groups')`. -/
  sessionGroups : GroupsParse
  /-- `CONFIG.api.groups`: method name → required group name. -/
  apiGroups : List (String × String)
  /-- `CONFIG.vfs.mounts`. -/
  vfsMounts : List (String × MountEntry)
  /-- `CONFIG.vfs.groups`: protocol → required group name. -/
  vfsGroups : List (String × String)
  /-- The keys of `instance.API` (methods with a registered handler). -/
  apiMethods : List String
  /-- Outcome of `STORAGE.getBlacklist(username)`: `.error` when the promise
  rejects; otherwise the (possibly falsy) blacklist value. -/
  blacklist : Except Unit (Option (List String))
  /-- The deployment's default protocol scheme for paths without `://`. -/
  defaultProtocol : String
  /-- Outcome of `_osjs.vfs.request` once dispatched. -/
  vfsOutcome : Except String String
  /-- Outcome of the registered API handler once dispatched. -/
  apiOutcome : Except String String

/-- One inbound server request, as the dispatcher sees it. -/
structure HttpReq where
  /-- `http.request.method` (compared against the literal `'GET'`). -/
  method : String
  /-- Whether the request is in the VFS namespace (`http.isfs`). -/
  isfs : Bool
  /-- Whether the request is in the API namespace (`http.isapi`). -/
  isapi : Bool
  /-- The endpoint below the namespace (`http.endpoint`). -/
  endpoint : String
  /-- The raw request path (`http.path`), used by the static branch. -/
  path : String
  /-- The parsed request body (`http.data`), as a VFS argument object. -/
  data : VfsArgsObj
deriving DecidableEq

/-! ## Virtual path resolver -/

/-- Modelled from the spec: the virtual-path resolver (`vfs.js`'s
`parseVirtualPath`, whose source is not among the files) splits the path
string of the argument object on the first `://` into protocol and relative
path; when no separator is present the configured default protocol applies
(spec section 4.1). -/
def parseVirtualPath (defaultProtocol : String) (args : VfsArgsObj) : VirtualPath :=
  match splitScheme args.path.toList with
  | some (proto, rest) => ⟨String.mk proto, String.mk rest⟩
  | none => ⟨defaultProtocol, args.path⟩

/-! ## The authorization checks (auth library + mysql authenticator) -/

/-- mysql authenticator `checkSession` (module source lines 98–106): resolves
when `http.session.get('username')` is truthy, otherwise rejects with the
session error message. -/
def checkSession (w : World) : Except String Unit :=
  if jsTruthyOptStr w.sessionUsername then .ok ()
  else .error "You have no OS.js Session, please log in!"

/-- mysql authenticator `checkPermission` (module source lines 92–96): always
resolves `true`, meaning the library's group checks are to be run. -/
def mysqlCheckPermission : Except String Bool := .ok true

/-- `hasGroup` (auth library lines 370–396).  Returns `true` whenever
`groupList` is not a non-empty `Array`.  Otherwise parses the session's
`groups` value (failures yield `[]`), grants `admin` unconditionally, and
otherwise requires every (`all` absent or truthy) or some (`all` falsy)
required group to be held. -/
def hasGroup (sessionGroups : GroupsParse) (groupList : GroupListArg)
    (all : Option Bool) : Bool :=
  match groupList with
  | .notArray => true
  | .arr [] => true
  | .arr gs =>
    let userGroups := parsedUserGroups sessionGroups
    if userGroups.contains "admin" then true
    else if all.getD true then
      gs.all (fun name => userGroups.contains name)
    else
      gs.any (fun name => userGroups.contains name)

/-- The `checks` array built by `checkApiPermission` (auth library lines
258–265): for `fs`-kind requests it is `[type]` (that is `["fs"]`); otherwise
the method name, when present and truthy, is looked up in `CONFIG.api.groups`. -/
def apiCheckList (w : World) (type : String) (options : PermOptions) : List String :=
  if type == "fs" then [type]
  else
    match options.method with
    | some m =>
      if m == "" then []
      else
        match lookupKV w.apiGroups m with
        | some g => [g]
        | none => []
    | none => []

/-- `checkApiPermission` (auth library lines 256–273): the verdict is
`hasGroup` with the `checks` array. -/
def checkApiPermission (w : World) (type : String) (options : PermOptions) :
    Except String Unit :=
  if hasGroup w.sessionGroups (.arr (apiCheckList w type options)) none then .ok ()
  else .error "Access denied!"

/-- The list of mutating VFS operations (auth library line 280). -/
def writeableMap : List String := ["upload", "write", "delete", "copy", "move", "mkdir"]

/-- The group-restriction portion of `checkMountPermission._check` (auth
library lines 289–293).  The source line 290 calls
`hasGroup(instance, http, groups[parsed.protocol])` — one extra leading
argument — so `hasGroup`'s `groupList` parameter receives the `http` request
object (which is not an `Array`) and its `all` parameter receives the
configured group value (whose truthiness is what matters there). -/
def mountGroupCheck (w : World) (protocol : String) : Bool :=
  match lookupKV w.vfsGroups protocol with
  | some g =>
    if g == "" then true
    else
      if hasGroup w.sessionGroups .notArray (some (!(g == ""))) then true
      else false
  | none => true

/-- `checkMountPermission._check` (auth library lines 276–296): resolve the
virtual path, reject when the owning mount object is disabled or is read-only
and the operation is mutating, then run the (shifted) group restriction. -/
def mountCheck (w : World) (options : PermOptions) : Bool :=
  let parsed := parseVirtualPath w.defaultProtocol (options.args.getD ⟨""⟩)
  let mount := lookupKV w.vfsMounts parsed.protocol
  let rejected :=
    match mount with
    | some m =>
      m.enabled == some false ||
        (m.ro == some true && writeableMap.contains (options.method.getD ""))
    | none => false
  if rejected then false
  else mountGroupCheck w parsed.protocol

/-- `checkMountPermission` (auth library lines 275–309): only applies to
`fs`-kind requests; rejects with `Access Denied!` when `_check` fails. -/
def checkMountPermission (w : World) (type : String) (options : PermOptions) :
    Except String Unit :=
  if type == "fs" then
    if mountCheck w options then .ok () else .error "Access Denied!"
  else .ok ()

/-- `checkPackagePermission` (auth library lines 311–327): only applies to
`package`-kind requests; queries the storage blacklist and rejects when the
requested package path is listed, or when the query's promise rejects. -/
def checkPackagePermission (w : World) (type : String) (options : PermOptions) :
    Except String Unit :=
  if type == "package" then
    match w.blacklist with
    | .error _ => .error "Access Denied!"
    | .ok bl =>
      match bl with
      | some xs =>
        if xs.contains (options.path.getD "") then .error "Access Denied!"
        else .ok ()
      | none => .ok ()
  else .ok ()

/-- The names of the four authorization checks of the pipeline. -/
inductive CheckName
  | session
  | apiGroup
  | mount
  | package
deriving DecidableEq, BEq

/-- The fixed order in which the pipeline runs its checks. -/
def checkOrder : List CheckName := [.session, .apiGroup, .mount, .package]

/-- `instance.js` line 395: the session and permission checks are skipped for
the api `login` method (`type === 'api' && ['login'].indexOf(options.method)
!== -1`). -/
def skipCheck (type : String) (options : PermOptions) : Bool :=
  type == "api" &&
    (match options.method with
     | some m => m == "login"
     | none => false)

/-- Auth library `checkPermission` (lines 329–346): runs the authenticator
module's own `checkPermission` (mysql: resolves `true`, and an `undefined`
resolution would count as `true`), then chains `checkApiPermission`,
`checkMountPermission` and `checkPackagePermission`, each `.catch(reject)`
short-circuiting on the first rejection.  The returned list records which of
the pipeline's named checks actually ran. -/
def checkPermission (w : World) (type : String) (options : PermOptions) :
    List CheckName × Except String Unit :=
  match mysqlCheckPermission with
  | .error e => ([], .error e)
  | .ok checkGroups =>
    if checkGroups then
      match checkApiPermission w type options with
      | .error e => ([.apiGroup], .error e)
      | .ok _ =>
        match checkMountPermission w type options with
        | .error e => ([.apiGroup, .mount], .error e)
        | .ok _ =>
          match checkPackagePermission w type options with
          | .error e => ([.apiGroup, .mount, .package], .error e)
          | .ok _ => ([.apiGroup, .mount, .package], .ok ())
    else ([], .ok ())

/-- `instance.js` `_checkPermission` (lines 394–412), outcome view: unless the
api-login skip applies, the session check runs first and, only when it
resolves, the auth library's `checkPermission` chain runs.  In the source a
failing check calls `_rejectResponse` and leaves the promise pending, so the
dispatch continuation never runs; that outcome is represented here as an
`error`.  The list records which named checks ran. -/
def authorize (w : World) (type : String) (options : PermOptions) :
    List CheckName × Except String Unit :=
  if skipCheck type options then ([], .ok ())
  else
    match checkSession w with
    | .error e => ([.session], .error e)
    | .ok _ =>
      let p := checkPermission w type options
      (CheckName.session :: p.1, p.2)

/-- The verdict of each named check in isolation. -/
def checkVerdict (w : World) (type : String) (options : PermOptions) :
    CheckName → Except String Unit
  | .session => checkSession w
  | .apiGroup => checkApiPermission w type options
  | .mount => checkMountPermission w type options
  | .package => checkPackagePermission w type options

/-- Boolean success view of an `Except` outcome. -/
def exceptOk : Except String Unit → Bool
  | .ok _ => true
  | .error _ => false

/-! ## The request dispatcher -/

/-- The `result` field of a JSON response envelope: absent, the literal
`false`, or a result value. -/
inductive ResultField
  | absent
  | bfalse
  | str (s : String)
deriving DecidableEq

/-- An observable effect of handling one request: a collaborator invocation or
a response, in source order. -/
inductive Effect
  | initSession
  | vfsOp (method : String) (args : VfsArgsObj)
  | apiInvoke (name : String)
  | getBlacklist (username : Option String)
  | respondJson (error : Option String) (result : ResultField) (code : Nat)
  | respondError (msg : String) (code : Nat)
  | respondFile (path : String)
deriving DecidableEq

/-- `_rejectResponse` (instance.js lines 374–385): a plain error response for
static requests, a JSON envelope with `result: false` and status 403
otherwise. -/
def rejectResponse (http : HttpReq) (err : String) : Effect :=
  if !http.isfs && !http.isapi then .respondError err 403
  else .respondJson (some err) .bfalse 403

/-- The storage blacklist query is issued exactly when the pipeline reaches
the package check with `package` kind (`tr` is the list of checks that ran). -/
def storageEffects (w : World) (type : String) (tr : List CheckName) : List Effect :=
  if tr.contains CheckName.package && type == "package" then
    [.getBlacklist w.sessionUsername]
  else []

/-- `_checkPermission` as the dispatcher observes it: the effects it emits and
whether the success continuation runs.  A failing check emits
`_rejectResponse` and stops the request (the promise is left pending). -/
def checkPermissionEffects (w : World) (http : HttpReq) (type : String)
    (options : PermOptions) : List Effect × Bool :=
  match authorize w type options with
  | (tr, .ok _) => (storageEffects w type tr, true)
  | (tr, .error e) => (storageEffects w type tr ++ [rejectResponse http e], false)

/-- `http.endpoint.replace(/(^get\x2f)?/, '')`: removes a leading `get/` when
present, otherwise replaces the empty match and leaves the string unchanged. -/
def stripGetRoute (s : String) : String :=
  if strStartsWith s "get/" then String.mk (s.toList.drop 4) else s

/-- `_vfsCall` (instance.js lines 415–427): the operation name is the endpoint
with any leading `get/` removed; a `get/` endpoint becomes a `read` operation
whose argument is `{path: remainder}`, all other endpoints forward
`http.data`.  The VFS transport request runs only when the permission check
succeeds. -/
def vfsCall (w : World) (http : HttpReq) : List Effect :=
  let method :=
    if strStartsWith http.endpoint "get/" then "read"
    else stripGetRoute http.endpoint
  let args :=
    if strStartsWith http.endpoint "get/" then
      VfsArgsObj.mk (stripGetRoute http.endpoint)
    else http.data
  let p := checkPermissionEffects w http "fs"
    { method := some method, args := some args }
  if p.2 then
    p.1 ++ [Effect.vfsOp method args] ++
      (match w.vfsOutcome with
       | .ok r => [Effect.respondJson none (.str r) 200]
       | .error e => [rejectResponse http e])
  else p.1

/-- `_apiCall` (instance.js lines 429–433): the registered handler is invoked
only when the permission check succeeds. -/
def apiCall (w : World) (http : HttpReq) : List Effect :=
  let p := checkPermissionEffects w http "api" { method := some http.endpoint }
  if p.2 then
    p.1 ++ [Effect.apiInvoke http.endpoint] ++
      (match w.apiOutcome with
       | .ok r => [Effect.respondJson none (.str r) 200]
       | .error e => [rejectResponse http e])
  else p.1

/-- The match `http.path.match(/^\x2f?packages\x2f(.*\x2f.*)\x2f(.*)/)` of
`_staticResponse` (instance.js line 445): an optional leading slash, the
literal `packages/`, a first capture that must itself contain a slash, a
separating slash, and a trailing capture.  With greedy matching the split
happens at the last slash of the remainder.  Paths are assumed free of newline
characters (which the regex dot would not match). -/
def packagesMatch (path : String) : Option (String × String) :=
  let cs := path.toList
  let p := if listStartsWith ['/'] cs then cs.drop 1 else cs
  if listStartsWith ("packages/".toList) p then
    match splitLastSlash (p.drop 9) with
    | some (a, b) =>
      if a.contains '/' then some (String.mk a, String.mk b) else none
    | none => none
  else none

/-- `_staticResponse` (instance.js lines 435–454): paths matching the
`packages/<name>/<file>` pattern require a successful `package` permission
check followed by a second session check before the file is served; all other
paths are served directly.  (The source joins the dist root onto `http.path`
to obtain the host path; the effect records the request path.) -/
def staticResponse (w : World) (http : HttpReq) : List Effect :=
  match packagesMatch http.path with
  | some (pname, _) =>
    let p := checkPermissionEffects w http "package" { path := some pname }
    if p.2 then
      p.1 ++
        (match checkSession w with
         | .ok _ => [Effect.respondFile http.path]
         | .error _ => [Effect.respondError "Access denied" 403])
    else p.1
  | none => [Effect.respondFile http.path]

/-- The dispatcher `request` (instance.js lines 372–479): after the session is
initialized, GET requests are VFS calls or static responses; other requests
are VFS calls, registered API calls, or the `No such API method` JSON error
with status 500. -/
def request (w : World) (http : HttpReq) : List Effect :=
  Effect.initSession ::
    (if http.method == "GET" then
      if http.isfs then vfsCall w http else staticResponse w http
    else
      if http.isfs then vfsCall w http
      else
        if w.apiMethods.contains http.endpoint then apiCall w http
        else [Effect.respondJson (some "No such API method") .absent 500])

/-! ## Effect classifiers -/

/-- Backend side effects: VFS transport operations, API handler invocations,
storage operations. -/
def isBackendEffect : Effect → Bool
  | .vfsOp _ _ => true
  | .apiInvoke _ => true
  | .getBlacklist _ => true
  | _ => false

/-- Is the effect a VFS transport operation? -/
def isVfsOpEff : Effect → Bool
  | .vfsOp _ _ => true
  | _ => false

/-- Is the effect a response with the given status code? -/
def isRespondWithCode (code : Nat) : Effect → Bool
  | .respondJson _ _ c => c == code
  | .respondError _ c => c == code
  | _ => false

/-- Is the effect a static file response? -/
def isRespondFile : Effect → Bool
  | .respondFile _ => true
  | _ => false

/-- Is the request a (non-GET, non-VFS) call to the api `login` method? -/
def isApiLoginRequest (http : HttpReq) : Bool :=
  !(http.method == "GET") && !http.isfs && http.endpoint == "login"

/-! ## Concrete worlds and requests used by witnesses and counterexamples -/

def wB : World := {
  sessionUsername := some "u"
  sessionGroups := .arr []
  apiGroups := []
  vfsMounts := []
  vfsGroups := []
  apiMethods := []
  blacklist := .error ()
  defaultProtocol := "home"
  vfsOutcome := .ok ""
  apiOutcome := .ok "" }

def w5 : World := {
  sessionUsername := some "u"
  sessionGroups := .arr ["admin"]
  apiGroups := [("curl", "api")]
  vfsMounts := []
  vfsGroups := [("home", "vfsgroup")]
  apiMethods := []
  blacklist := .ok none
  defaultProtocol := "home"
  vfsOutcome := .ok ""
  apiOutcome := .ok "" }

def wC4 : World := {
  sessionUsername := some "u"
  sessionGroups := .arr ["fs", "users"]
  apiGroups := []
  vfsMounts := []
  vfsGroups := [("home", "admin")]
  apiMethods := []
  blacklist := .ok none
  defaultProtocol := "home"
  vfsOutcome := .ok ""
  apiOutcome := .ok "" }

def optsC4 : PermOptions := { method := some "read", args := some ⟨"home:///f.txt"⟩ }

def w3 : World := {
  sessionUsername := some "u"
  sessionGroups := .arr ["admin"]
  apiGroups := []
  vfsMounts := [("home", ⟨none, some true⟩)]
  vfsGroups := []
  apiMethods := []
  blacklist := .ok none
  defaultProtocol := "home"
  vfsOutcome := .ok ""
  apiOutcome := .ok "" }

def http6 : HttpReq := {
  method := "POST"
  isfs := false
  isapi := true
  endpoint := "doesNotExist"
  path := "/API/doesNotExist"
  data := ⟨""⟩ }

def w7 : World := {
  sessionUsername := some "u"
  sessionGroups := .arr ["admin"]
  apiGroups := []
  vfsMounts := []
  vfsGroups := []
  apiMethods := []
  blacklist := .ok none
  defaultProtocol := "home"
  vfsOutcome := .ok "data"
  apiOutcome := .ok "" }

def http7 : HttpReq := {
  method := "GET"
  isfs := true
  isapi := false
  endpoint := "get/home:///a.txt"
  path := "/FS/get/home:///a.txt"
  data := ⟨""⟩ }

def w1 : World := {
  sessionUsername := none
  sessionGroups := .error
  apiGroups := []
  vfsMounts := []
  vfsGroups := []
  apiMethods := ["curl"]
  blacklist := .ok none
  defaultProtocol := "home"
  vfsOutcome := .ok ""
  apiOutcome := .ok "" }

def http1 : HttpReq := {
  method := "POST"
  isfs := false
  isapi := true
  endpoint := "curl"
  path := "/API/curl"
  data := ⟨""⟩ }

def wC8 : World := {
  sessionUsername := some "u"
  sessionGroups := .arr []
  apiGroups := []
  vfsMounts := []
  vfsGroups := []
  apiMethods := []
  blacklist := .ok (some ["default/X"])
  defaultProtocol := "home"
  vfsOutcome := .ok ""
  apiOutcome := .ok "" }

def httpC8 : HttpReq := {
  method := "GET"
  isfs := false
  isapi := false
  endpoint := ""
  path := "/packages/default/X/main.js"
  data := ⟨""⟩ }

/-! ## Helper lemmas -/

theorem checkApiPermission_error_msg (w : World) (type : String)
    (options : PermOptions) (e : String)
    (h : checkApiPermission w type options = .error e) : e = "Access denied!" := by
  unfold checkApiPermission at h
  split at h
  · exact absurd h (by simp)
  · simp at h
    exact h.symm

theorem authorize_session_fail (w : World) (type : String) (options : PermOptions)
    (hskip : skipCheck type options = false)
    (hsess : jsTruthyOptStr w.sessionUsername = false) :
    authorize w type options =
      ([CheckName.session], .error "You have no OS.js Session, please log in!") := by
  unfold authorize checkSession
  rw [hskip, hsess]
  simp

theorem storageEffects_session (w : World) (type : String) :
    storageEffects w type [CheckName.session] = [] := by
  unfold storageEffects
  have h : ([CheckName.session].contains CheckName.package) = false := by decide
  rw [h]
  simp

theorem checkPermissionEffects_session_fail (w : World) (http : HttpReq)
    (type : String) (options : PermOptions)
    (hskip : skipCheck type options = false)
    (hsess : jsTruthyOptStr w.sessionUsername = false) :
    checkPermissionEffects w http type options =
      ([rejectResponse http "You have no OS.js Session, please log in!"], false) := by
  unfold checkPermissionEffects
  rw [authorize_session_fail w type options hskip hsess]
  simp only []
  rw [storageEffects_session]
  simp

theorem rejectResponse_not_backend (http : HttpReq) (e : String) :
    isBackendEffect (rejectResponse http e) = false := by
  unfold rejectResponse
  split <;> rfl

theorem rejectResponse_not_vfs (http : HttpReq) (e : String) :
    isVfsOpEff (rejectResponse http e) = false := by
  unfold rejectResponse
  split <;> rfl

theorem storageEffects_no_vfs (w : World) (type : String) (tr : List CheckName) :
    (storageEffects w type tr).all (fun e => !isVfsOpEff e) = true := by
  unfold storageEffects
  split <;> rfl

theorem storageEffects_no_file (w : World) (type : String) (tr : List CheckName) :
    (storageEffects w type tr).all (fun e => !isRespondFile e) = true := by
  unfold storageEffects
  split <;> rfl

theorem checkPermissionEffects_no_vfs (w : World) (http : HttpReq)
    (type : String) (options : PermOptions) :
    ((checkPermissionEffects w http type options).1).all (fun e => !isVfsOpEff e) = true := by
  unfold checkPermissionEffects
  cases h : authorize w type options with
  | mk tr r =>
    cases r with
    | ok u => exact storageEffects_no_vfs w type tr
    | error e =>
      simp only [List.all_append]
      rw [storageEffects_no_vfs]
      simp [rejectResponse_not_vfs]

theorem authorize_snd (w : World) (type : String) (options : PermOptions)
    (hskip : skipCheck type options = false) (hs : checkSession w = .ok ()) :
    (authorize w type options).2 =
      (match checkApiPermission w type options with
       | .error e => .error e
       | .ok _ =>
         match checkMountPermission w type options with
         | .error e => .error e
         | .ok _ => checkPackagePermission w type options) := by
  unfold authorize checkPermission mysqlCheckPermission
  rw [hskip, hs]
  cases checkApiPermission w type options with
  | error e => rfl
  | ok u =>
    cases checkMountPermission w type options with
    | error e => rfl
    | ok v =>
      cases checkPackagePermission w type options with
      | error e => rfl
      | ok z => rfl

/-- Claim C9: hasGroup permits whenever the required list is not a non-empty
Array, and a session groups value that is absent or invalid JSON leaves the
caller with no groups, so every non-empty required list is refused. -/
theorem C9_hasGroup_defaults :
    (∀ sg all, hasGroup sg .notArray all = true) ∧
    (∀ sg all, hasGroup sg (.arr []) all = true) ∧
    (∀ gs all, gs ≠ [] → hasGroup GroupsParse.error (.arr gs) all = false) := by
  refine ⟨fun sg al => rfl, fun sg al => rfl, ?_⟩
  intro gs al hne
  cases gs with
  | nil => exact absurd rfl hne
  | cons g gs =>
    cases al with
    | none => simp [hasGroup, parsedUserGroups]
    | some b => cases b <;> simp [hasGroup, parsedUserGroups]

/-- Witness for C9 at a concrete non-empty group list. -/
theorem C9_witness :
    hasGroup GroupsParse.error (.arr ["users"]) none = false :=
  C9_hasGroup_defaults.2.2 ["users"] none (by decide)

/-- Claim C10: when the storage blacklist query rejects, the package
permission check rejects with an access-denied error (fail-closed). -/
theorem C10_blacklist_fail_closed (w : World) (options : PermOptions)
    (hb : w.blacklist = .error ()) :
    checkPackagePermission w "package" options = .error "Access Denied!" := by
  simp [checkPackagePermission, hb]

/-- Witness for C10 at a concrete world with a failing storage backend. -/
theorem C10_witness :
    checkPackagePermission wB "package" { path := some "default/X" } =
      .error "Access Denied!" :=
  C10_blacklist_fail_closed wB { path := some "default/X" } rfl

/-- Claim C5: a caller whose parsed session groups include `admin` passes
every group-gated check: `hasGroup` itself, the API method group check, and
the VFS protocol group restriction. -/
theorem C5_admin_bypasses_group_checks (w : World)
    (hadmin : (parsedUserGroups w.sessionGroups).contains "admin" = true) :
    (∀ gl all, hasGroup w.sessionGroups gl all = true) ∧
    (∀ type options, checkApiPermission w type options = .ok ()) ∧
    (∀ protocol, mountGroupCheck w protocol = true) := by
  have hg : ∀ gl al, hasGroup w.sessionGroups gl al = true := by
    intro gl al
    cases gl with
    | notArray => rfl
    | arr gs =>
      cases gs with
      | nil => rfl
      | cons g gs =>
        have hadmin2 : "admin" ∈ parsedUserGroups w.sessionGroups := by
          simpa using hadmin
        simp [hasGroup, hadmin2]
  refine ⟨hg, ?_, ?_⟩
  · intro type options
    unfold checkApiPermission
    rw [hg]
    rfl
  · intro protocol
    unfold mountGroupCheck
    cases h : lookupKV w.vfsGroups protocol with
    | none => rfl
    | some g => split <;> simp [hg]

/-- Witness for C5 at a concrete admin session. -/
theorem C5_witness :
    hasGroup w5.sessionGroups (.arr ["restricted"]) none = true ∧
    checkApiPermission w5 "api" { method := some "curl" } = .ok () ∧
    mountGroupCheck w5 "home" = true := by
  have h := C5_admin_bypasses_group_checks w5 (by decide)
  exact ⟨h.1 (.arr ["restricted"]) none, h.2.1 "api" { method := some "curl" }, h.2.2 "home"⟩

/-- Claim C4 (code behaviour at the failing input): the `home` protocol is
restricted to the `admin` group and the caller (groups `fs`, `users`) does not
hold it — `hasGroup` with the intended arguments refuses — yet the mount
permission check and the whole fs-kind pipeline resolve successfully, because
the source calls `hasGroup` with an extra leading argument so that its
`groupList` parameter receives the non-Array `http` object. -/
theorem C4_code_permits_despite_group :
    lookupKV wC4.vfsGroups
      (parseVirtualPath wC4.defaultProtocol (optsC4.args.getD ⟨""⟩)).protocol =
        some "admin" ∧
    hasGroup wC4.sessionGroups (.arr ["admin"]) none = false ∧
    checkMountPermission wC4 "fs" optsC4 = .ok () ∧
    (authorize wC4 "fs" optsC4).2 = .ok () :=
  ⟨by decide, by decide, rfl, rfl⟩

/-- Claim C3: an fs-kind authorization for a mutating operation against a
read-only mount is refused by the mount check with `Access Denied!`, and the
whole pipeline (for any caller with a valid session, whatever the groups)
rejects with an access-denied error. -/
theorem C3_readonly_mount_rejects (w : World) (method vpath : String)
    (mount : MountEntry)
    (hsess : jsTruthyOptStr w.sessionUsername = true)
    (hm : lookupKV w.vfsMounts
      (parseVirtualPath w.defaultProtocol ⟨vpath⟩).protocol = some mount)
    (hro : mount.ro = some true)
    (hwr : writeableMap.contains method = true) :
    checkMountPermission w "fs" { method := some method, args := some ⟨vpath⟩ } =
      .error "Access Denied!" ∧
    (∃ e, (authorize w "fs" { method := some method, args := some ⟨vpath⟩ }).2 =
        .error e ∧ (e = "Access denied!" ∨ e = "Access Denied!")) := by
  have hmc : mountCheck w { method := some method, args := some ⟨vpath⟩ } = false := by
    unfold mountCheck
    simp only [Option.getD_some]
    rw [hm]
    have hwr2 : method ∈ writeableMap := by simpa using hwr
    simp [hro, hwr2]
  have hcm : checkMountPermission w "fs" { method := some method, args := some ⟨vpath⟩ } =
      .error "Access Denied!" := by
    unfold checkMountPermission
    rw [hmc]
    rfl
  have hs : checkSession w = .ok () := by
    unfold checkSession
    rw [hsess]
    rfl
  have hskip : skipCheck "fs" { method := some method, args := some ⟨vpath⟩ } = false := rfl
  refine ⟨hcm, ?_⟩
  rw [authorize_snd w "fs" _ hskip hs]
  cases ha : checkApiPermission w "fs" { method := some method, args := some ⟨vpath⟩ } with
  | error e =>
    exact ⟨e, rfl, .inl (checkApiPermission_error_msg w "fs" _ e ha)⟩
  | ok u =>
    rw [hcm]
    exact ⟨"Access Denied!", rfl, .inr rfl⟩

/-- Witness for C3 at a concrete read-only mount and an admin caller. -/
theorem C3_witness :
    checkMountPermission w3 "fs" { method := some "write", args := some ⟨"home:///f"⟩ } =
      .error "Access Denied!" ∧
    (∃ e, (authorize w3 "fs" { method := some "write", args := some ⟨"home:///f"⟩ }).2 =
        .error e ∧ (e = "Access denied!" ∨ e = "Access Denied!")) :=
  C3_readonly_mount_rejects w3 "write" "home:///f" ⟨none, some true⟩ rfl rfl rfl rfl

theorem authorize_session_err_shape (w : World) (type : String) (options : PermOptions)
    (e : String) (hskip : skipCheck type options = false)
    (hs : checkSession w = .error e) :
    authorize w type options = ([CheckName.session], .error e) := by
  simp [authorize, hskip, hs]

theorem authorize_api_err_shape (w : World) (type : String) (options : PermOptions)
    (e : String) (hskip : skipCheck type options = false)
    (hs : checkSession w = .ok ())
    (ha : checkApiPermission w type options = .error e) :
    authorize w type options = ([CheckName.session, CheckName.apiGroup], .error e) := by
  simp [authorize, checkPermission, mysqlCheckPermission, hskip, hs, ha]

theorem authorize_mount_err_shape (w : World) (type : String) (options : PermOptions)
    (e : String) (hskip : skipCheck type options = false)
    (hs : checkSession w = .ok ())
    (ha : checkApiPermission w type options = .ok ())
    (hmo : checkMountPermission w type options = .error e) :
    authorize w type options =
      ([CheckName.session, CheckName.apiGroup, CheckName.mount], .error e) := by
  simp [authorize, checkPermission, mysqlCheckPermission, hskip, hs, ha, hmo]

theorem authorize_package_err_shape (w : World) (type : String) (options : PermOptions)
    (e : String) (hskip : skipCheck type options = false)
    (hs : checkSession w = .ok ())
    (ha : checkApiPermission w type options = .ok ())
    (hmo : checkMountPermission w type options = .ok ())
    (hp : checkPackagePermission w type options = .error e) :
    authorize w type options = (checkOrder, .error e) := by
  simp [authorize, checkPermission, mysqlCheckPermission, checkOrder, hskip, hs, ha, hmo, hp]

theorem authorize_ok_shape (w : World) (type : String) (options : PermOptions)
    (hskip : skipCheck type options = false)
    (hs : checkSession w = .ok ())
    (ha : checkApiPermission w type options = .ok ())
    (hmo : checkMountPermission w type options = .ok ())
    (hp : checkPackagePermission w type options = .ok ()) :
    authorize w type options = (checkOrder, .ok ()) := by
  simp [authorize, checkPermission, mysqlCheckPermission, checkOrder, hskip, hs, ha, hmo, hp]

/-- Claim C2: the authorization pipeline runs the session check, the
API/method group check, the mount check and the package blacklist check in
this fixed order; its trace is a prefix of that order, success means all four
ran, and a failure at the k-th check ends the trace exactly there, all earlier
checks having passed and no later check running. -/
theorem C2_pipeline_order (w : World) (type : String) (options : PermOptions)
    (hskip : skipCheck type options = false) :
    (∃ n, n ≤ 4 ∧ (authorize w type options).1 = checkOrder.take n) ∧
    ((authorize w type options).2 = .ok () → (authorize w type options).1 = checkOrder) ∧
    (∀ e, (authorize w type options).2 = .error e →
      ∃ k, k < 4 ∧ (authorize w type options).1 = checkOrder.take (k + 1) ∧
        checkVerdict w type options (checkOrder.getD k .session) = .error e ∧
        ∀ j, j < k → checkVerdict w type options (checkOrder.getD j .session) = .ok ()) := by
  cases hs : checkSession w with
  | error e0 =>
    rw [authorize_session_err_shape w type options e0 hskip hs]
    refine ⟨⟨1, by omega, rfl⟩, fun h => absurd h (by simp), ?_⟩
    intro e he
    simp only [] at he
    injection he with hee
    subst hee
    exact ⟨0, by omega, rfl, hs, fun j hj => absurd hj (Nat.not_lt_zero j)⟩
  | ok u0 =>
    cases u0
    cases ha : checkApiPermission w type options with
    | error e0 =>
      rw [authorize_api_err_shape w type options e0 hskip hs ha]
      refine ⟨⟨2, by omega, rfl⟩, fun h => absurd h (by simp), ?_⟩
      intro e he
      simp only [] at he
      injection he with hee
      subst hee
      refine ⟨1, by omega, rfl, ha, ?_⟩
      intro j hj
      have hj0 : j = 0 := by omega
      subst hj0
      exact hs
    | ok u1 =>
      cases u1
      cases hmo : checkMountPermission w type options with
      | error e0 =>
        rw [authorize_mount_err_shape w type options e0 hskip hs ha hmo]
        refine ⟨⟨3, by omega, rfl⟩, fun h => absurd h (by simp), ?_⟩
        intro e he
        simp only [] at he
        injection he with hee
        subst hee
        refine ⟨2, by omega, rfl, hmo, ?_⟩
        intro j hj
        interval_cases j
        · exact hs
        · exact ha
      | ok u2 =>
        cases u2
        cases hp : checkPackagePermission w type options with
        | error e0 =>
          rw [authorize_package_err_shape w type options e0 hskip hs ha hmo hp]
          refine ⟨⟨4, by omega, rfl⟩, fun h => absurd h (by simp), ?_⟩
          intro e he
          simp only [] at he
          injection he with hee
          subst hee
          refine ⟨3, by omega, rfl, hp, ?_⟩
          intro j hj
          interval_cases j
          · exact hs
          · exact ha
          · exact hmo
        | ok u3 =>
          cases u3
          rw [authorize_ok_shape w type options hskip hs ha hmo hp]
          refine ⟨⟨4, by omega, rfl⟩, fun h => rfl, ?_⟩
          intro e he
          exact absurd he (by simp)

/-- Witness for C2 at a concrete api-kind request. -/
theorem C2_witness :
    (∃ n, n ≤ 4 ∧ (authorize w5 "api" { method := some "curl" }).1 = checkOrder.take n) ∧
    ((authorize w5 "api" { method := some "curl" }).2 = .ok () →
      (authorize w5 "api" { method := some "curl" }).1 = checkOrder) ∧
    (∀ e, (authorize w5 "api" { method := some "curl" }).2 = .error e →
      ∃ k, k < 4 ∧
        (authorize w5 "api" { method := some "curl" }).1 = checkOrder.take (k + 1) ∧
        checkVerdict w5 "api" { method := some "curl" } (checkOrder.getD k .session) = .error e ∧
        ∀ j, j < k →
          checkVerdict w5 "api" { method := some "curl" } (checkOrder.getD j .session) = .ok ()) :=
  C2_pipeline_order w5 "api" { method := some "curl" } rfl

theorem checkPermissionEffects_of_error (w : World) (http : HttpReq) (type : String)
    (options : PermOptions) (e : String)
    (h : (authorize w type options).2 = .error e) :
    checkPermissionEffects w http type options =
      (storageEffects w type (authorize w type options).1 ++ [rejectResponse http e],
       false) := by
  unfold checkPermissionEffects
  rcases ha : authorize w type options with ⟨tr, r⟩
  have hr : r = .error e := by rw [ha] at h; exact h
  subst hr
  rfl

theorem storageEffects_not_file_mem (w : World) (type : String) (tr : List CheckName)
    (q : String) (h : Effect.respondFile q ∈ storageEffects w type tr) : False := by
  have hall := storageEffects_no_file w type tr
  rw [List.all_eq_true] at hall
  have h2 := hall _ h
  simp [isRespondFile] at h2

/-- Claim C6: a non-GET request outside the VFS namespace whose endpoint names
no registered API method yields exactly the `No such API method` JSON envelope
with status 500 and no 403 response. -/
theorem C6_unknown_api_method (w : World) (http : HttpReq)
    (hget : (http.method == "GET") = false)
    (hfs : http.isfs = false)
    (hreg : w.apiMethods.contains http.endpoint = false) :
    request w http =
      [Effect.initSession, Effect.respondJson (some "No such API method") .absent 500] ∧
    (request w http).all (fun e => !isRespondWithCode 403 e) = true := by
  have hreg2 : http.endpoint ∉ w.apiMethods := by simpa using hreg
  have h1 : request w http =
      [Effect.initSession, Effect.respondJson (some "No such API method") .absent 500] := by
    simp [request, hget, hfs, hreg2]
  exact ⟨h1, by rw [h1]; rfl⟩

/-- Witness for C6 at a concrete unregistered method name. -/
theorem C6_witness :
    request w5 http6 =
      [Effect.initSession, Effect.respondJson (some "No such API method") .absent 500] ∧
    (request w5 http6).all (fun e => !isRespondWithCode 403 e) = true :=
  C6_unknown_api_method w5 http6 rfl rfl rfl

/-- Claim C7: any VFS transport operation dispatched for an endpoint beginning
with `get/` is the `read` operation whose path argument is the endpoint with
the leading `get/` removed. -/
theorem C7_get_route (w : World) (http : HttpReq)
    (hfs : http.isfs = true)
    (hget : strStartsWith http.endpoint "get/" = true) :
    ∀ m a, Effect.vfsOp m a ∈ request w http →
      m = "read" ∧ a = VfsArgsObj.mk (stripGetRoute http.endpoint) := by
  intro m a hmem
  have hv : Effect.vfsOp m a ∈ vfsCall w http := by
    simp [request, hfs] at hmem
    exact hmem
  rw [vfsCall] at hv
  rw [hget] at hv
  simp only [if_true] at hv
  rcases hps : checkPermissionEffects w http "fs"
      { method := some "read", args := some (VfsArgsObj.mk (stripGetRoute http.endpoint)) }
    with ⟨effs, proceed⟩
  rw [hps] at hv
  have hnv : ∀ x ∈ effs, isVfsOpEff x = false := by
    have hall := checkPermissionEffects_no_vfs w http "fs"
      { method := some "read", args := some (VfsArgsObj.mk (stripGetRoute http.endpoint)) }
    rw [hps, List.all_eq_true] at hall
    intro x hx
    have := hall x hx
    simpa using this
  cases proceed with
  | false =>
    simp only [] at hv
    have := hnv _ hv
    simp [isVfsOpEff] at this
  | true =>
    replace hv : Effect.vfsOp m a ∈
        effs ++ [Effect.vfsOp "read" (VfsArgsObj.mk (stripGetRoute http.endpoint))] ++
          (match w.vfsOutcome with
           | .ok r => [Effect.respondJson none (.str r) 200]
           | .error e => [rejectResponse http e]) := hv
    cases ho : w.vfsOutcome with
    | ok r =>
      rw [ho] at hv
      simp only [List.mem_append, List.mem_singleton] at hv
      rcases hv with (hv | hv) | hv
      · exact absurd (hnv _ hv) (by simp [isVfsOpEff])
      · injection hv with h2 h3
        exact ⟨h2, h3⟩
      · exact absurd hv (by simp)
    | error e =>
      rw [ho] at hv
      simp only [List.mem_append, List.mem_singleton] at hv
      rcases hv with (hv | hv) | hv
      · exact absurd (hnv _ hv) (by simp [isVfsOpEff])
      · injection hv with h2 h3
        exact ⟨h2, h3⟩
      · exfalso
        have := rejectResponse_not_vfs http e
        rw [← hv] at this
        simp [isVfsOpEff] at this

/-- Witness for C7 at a concrete dispatched `get/` request. -/
theorem C7_witness :
    "read" = "read" ∧
      (VfsArgsObj.mk "home:///a.txt") = VfsArgsObj.mk (stripGetRoute http7.endpoint) :=
  C7_get_route w7 http7 rfl rfl "read" (VfsArgsObj.mk "home:///a.txt") (by decide)

theorem vfsCall_session_fail (w : World) (http : HttpReq)
    (hsess : jsTruthyOptStr w.sessionUsername = false) :
    vfsCall w http =
      [rejectResponse http "You have no OS.js Session, please log in!"] := by
  simp only [vfsCall]
  rw [checkPermissionEffects_session_fail w http "fs" _ rfl hsess]
  rfl

theorem apiCall_session_fail (w : World) (http : HttpReq)
    (hsess : jsTruthyOptStr w.sessionUsername = false)
    (hne : (http.endpoint == "login") = false) :
    apiCall w http =
      [rejectResponse http "You have no OS.js Session, please log in!"] := by
  have hskip : skipCheck "api" { method := some http.endpoint } = false := by
    simp [skipCheck, hne]
  unfold apiCall
  rw [checkPermissionEffects_session_fail w http "api" _ hskip hsess]
  rfl

theorem staticResponse_session_fail (w : World) (http : HttpReq)
    (hsess : jsTruthyOptStr w.sessionUsername = false) :
    (staticResponse w http).all (fun e => !isBackendEffect e) = true := by
  cases hp : packagesMatch http.path with
  | none => simp [staticResponse, hp, isBackendEffect]
  | some pr =>
    cases pr with
    | mk pname pfile =>
      have hcp := checkPermissionEffects_session_fail w http "package"
        { path := some pname } rfl hsess
      simp [staticResponse, hp, hcp, rejectResponse_not_backend]

theorem initSession_not_backend : isBackendEffect Effect.initSession = false := rfl

/-- Claim C1: when the session check rejects (no valid session) and the
request is not the api `login` method, no VFS transport operation, no API
handler and no storage operation appears among the effects of handling the
request. -/
theorem C1_session_reject_blocks_backend (w : World) (http : HttpReq)
    (hsess : jsTruthyOptStr w.sessionUsername = false)
    (hnl : isApiLoginRequest http = false) :
    (request w http).all (fun e => !isBackendEffect e) = true := by
  unfold request
  by_cases hget : (http.method == "GET") = true
  · rw [hget]
    simp only [if_true]
    by_cases hfs : http.isfs = true
    · rw [hfs]
      simp only [if_true]
      rw [vfsCall_session_fail w http hsess]
      simp [rejectResponse_not_backend, initSession_not_backend]
    · replace hfs : http.isfs = false := by
        cases h : http.isfs
        · rfl
        · exact absurd h hfs
      rw [hfs]
      simp only [Bool.false_eq_true, if_false]
      have hst := staticResponse_session_fail w http hsess
      simp [List.all_cons, initSession_not_backend, hst]
  · replace hget : (http.method == "GET") = false := by
      cases h : (http.method == "GET")
      · rfl
      · exact absurd h hget
    rw [hget]
    simp only [Bool.false_eq_true, if_false]
    by_cases hfs : http.isfs = true
    · rw [hfs]
      simp only [if_true]
      rw [vfsCall_session_fail w http hsess]
      simp [rejectResponse_not_backend, initSession_not_backend]
    · replace hfs : http.isfs = false := by
        cases h : http.isfs
        · rfl
        · exact absurd h hfs
      rw [hfs]
      simp only [Bool.false_eq_true, if_false]
      by_cases hreg : (w.apiMethods.contains http.endpoint) = true
      · rw [hreg]
        simp only [if_true]
        have hne : (http.endpoint == "login") = false := by
          simp [isApiLoginRequest, hget, hfs] at hnl
          simpa using hnl
        rw [apiCall_session_fail w http hsess hne]
        simp [rejectResponse_not_backend, initSession_not_backend]
      · replace hreg : (w.apiMethods.contains http.endpoint) = false := by
          cases h : (w.apiMethods.contains http.endpoint)
          · rfl
          · exact absurd h hreg
        rw [hreg]
        simp only [Bool.false_eq_true, if_false]
        rfl

/-- Witness for C1 at a concrete sessionless API request. -/
theorem C1_witness :
    (request w1 http1).all (fun e => !isBackendEffect e) = true :=
  C1_session_reject_blocks_backend w1 http1 rfl rfl

/-- Claim C8 (amended): for a GET request outside the VFS namespace whose path
matches `packages/<name>/<file>`, a failing package authorization yields a 403
response carrying the failing check's error message and no file is served,
and a served file implies the package authorization succeeded. -/
theorem C8_package_gate (w : World) (http : HttpReq)
    (hget : (http.method == "GET") = true)
    (hfs : http.isfs = false)
    (hapi : http.isapi = false)
    (pname pfile : String)
    (hm : packagesMatch http.path = some (pname, pfile)) :
    (∀ e, (authorize w "package" { path := some pname }).2 = .error e →
      ((request w http).all (fun x => !isRespondFile x) = true ∧
       Effect.respondError e 403 ∈ request w http)) ∧
    ((∃ q, Effect.respondFile q ∈ request w http) →
      (authorize w "package" { path := some pname }).2 = .ok ()) := by
  have hreq : request w http = Effect.initSession :: staticResponse w http := by
    simp [request, hget, hfs]
  have hfail : ∀ e, (authorize w "package" { path := some pname }).2 = .error e →
      staticResponse w http =
        storageEffects w "package" (authorize w "package" { path := some pname }).1 ++
          [Effect.respondError e 403] := by
    intro e he
    have hcp := checkPermissionEffects_of_error w http "package" { path := some pname } e he
    have hrj : rejectResponse http e = .respondError e 403 := by
      simp [rejectResponse, hfs, hapi]
    simp [staticResponse, hm, hcp, hrj]
  constructor
  · intro e he
    constructor
    · rw [hreq, hfail e he]
      simp only [List.all_cons, List.all_append]
      rw [storageEffects_no_file]
      rfl
    · rw [hreq, hfail e he]
      simp
  · rintro ⟨q, hq⟩
    cases h2 : (authorize w "package" { path := some pname }).2 with
    | ok u => cases u; rfl
    | error e =>
      rw [hreq, hfail e h2] at hq
      simp only [List.mem_cons, List.mem_append, List.mem_singleton] at hq
      rcases hq with hq | hq | hq
      · exact absurd hq (by simp)
      · exact absurd hq (storageEffects_not_file_mem w "package" _ q)
      · exact absurd hq (by simp)

/-- Counterexample for C8 as stated: at this concrete request the package
authorization fails (the package is blacklisted) and the file is not served,
but the emitted response is `Access Denied!` with status 403 — the claim's
literal `Access denied` response never occurs. -/
theorem C8_counterexample :
    packagesMatch httpC8.path = some ("default/X", "main.js") ∧
    (authorize wC8 "package" { path := some "default/X" }).2 = .error "Access Denied!" ∧
    request wC8 httpC8 =
      [Effect.initSession, Effect.getBlacklist (some "u"),
       Effect.respondError "Access Denied!" 403] ∧
    (Effect.respondError "Access denied" 403 ∈ request wC8 httpC8 → False) :=
  ⟨by decide, rfl, by decide, by decide⟩

/-- Witness for the amended C8 at a concrete blacklisted package. -/
theorem C8_witness :
    (request wC8 httpC8).all (fun x => !isRespondFile x) = true ∧
    Effect.respondError "Access Denied!" 403 ∈ request wC8 httpC8 :=
  (C8_package_gate wC8 httpC8 rfl rfl rfl "default/X" "main.js" (by decide)).1
    "Access Denied!" rfl
